import Mathlib

/-!
Verification of the product-listing application (Next.js + TanStack Query)
against its specification.

The development shallowly embeds the three layers of the app:

* the catalog client `ProductService.fetchProducts`
  (src/lib/services/product.service.ts), modelled as a pure function over a
  `transport` oracle standing for the ambient `fetch`; the body oracle
  distinguishes only what the program can observe: `response.json()`
  rejects solely on invalid JSON syntax, and any resolved value —
  well-shaped or not — is passed through unvalidated;
* the pagination controller built from `useInfiniteQuery` in `useProducts`
  (src/hooks/use-products.ts): the repository supplies `getNextPageParam`,
  `queryFn` and the `initialData` seeding, while the generic infinite-query
  stepping (fetchNextPage / mount) is modelled from the spec, since the
  TanStack library is an external collaborator;
* the presentation layer: `ProductListClient`'s render branches and
  `ProductGrid.handleIntersection`'s trigger condition.

Requests issued by an operation are returned explicitly as the list of URL
strings passed to `fetch`, so "exactly one request", "no further fetch" and
"re-requests the same offset" become statements about that list.
-/

namespace ProductApp

/-- Modelled from the spec: the `Product` record (src/types/product.ts is not
part of the provided source tree).  Only the identity-bearing fields are kept;
the remaining catalogue fields are opaque metadata passed through unmodified
and never inspected by the code under verification. -/
structure Product where
  id : Nat
  title : String
  deriving DecidableEq, Repr

/-- The JSON envelope returned by the catalog endpoint, `ProductsResponse`:
`{ products, total, skip, limit }`. -/
structure ProductsResponse where
  products : List Product
  total : Nat
  skip : Nat
  limit : Nat
  deriving DecidableEq, Repr

/-- A value resolved by `response.json()`: any syntactically valid JSON
value, which the service returns without shape validation (the TypeScript
cast to `ProductsResponse` is unchecked).  Either the value happens to have
the expected `ProductsResponse` shape, or it is some other JSON value, kept
opaque here because the program never inspects its structure. -/
inductive JsonValue where
  | page (p : ProductsResponse)
  | other (raw : String)
  deriving DecidableEq, Repr

/-- The outcome of one `fetch(url)` call as observed by `fetchProducts`:
either the promise rejects (network failure, with the rejection's message),
or a response arrives carrying its `ok` flag, its `statusText`, and a body
on which `response.json()` either resolves — with any syntactically valid
JSON value, well-shaped or not — or rejects, which happens only for
invalid JSON syntax, with a parse-error message. -/
inductive FetchOutcome where
  | networkFailure (message : String)
  | response (ok : Bool) (statusText : String)
      (body : Except String JsonValue)

/-- The three error kinds of the catalog client, each carrying the message
of the underlying JavaScript `Error` object: `transportError` (the `fetch`
rejection), `fetchFailed` (the `Error` thrown on a non-ok status), and
`decodeError` (the `response.json()` rejection). -/
inductive FetchError where
  | transportError (message : String)
  | fetchFailed (message : String)
  | decodeError (message : String)
  deriving DecidableEq, Repr

/-- `API_BASE_URL` from src/lib/services/product.service.ts. -/
def API_BASE_URL : String := "https://dummyjson.com"

/-- The request URL built by `fetchProducts` via the template literal
over the base url, the limit and the skip. -/
def productsUrl (limit skip : Nat) : String :=
  API_BASE_URL ++ "/products?limit=" ++ toString limit ++ "&skip=" ++ toString skip

/-- `ProductService.fetchProducts` (src/lib/services/product.service.ts):
builds the url, performs one `fetch`, throws
`Failed to fetch products: statusText` when the response is not ok, and
otherwise returns whatever `response.json()` resolved with, as-is and
unvalidated (`return response.json()` performs no shape check).  The first
component records the requests issued during the call. -/
def fetchProducts (transport : String → FetchOutcome) (limit skip : Nat) :
    List String × Except FetchError JsonValue :=
  let url := productsUrl limit skip
  match transport url with
  | .networkFailure msg => ([url], .error (.transportError msg))
  | .response ok statusText body =>
      if !ok then
        ([url], .error (.fetchFailed ("Failed to fetch products: " ++ statusText)))
      else
        match body with
        | .ok value => ([url], .ok value)
        | .error msg => ([url], .error (.decodeError msg))

/-- `getNextPageParam` from `useProducts` (src/hooks/use-products.ts):
`nextSkip = lastPage.skip + lastPage.limit`, and `undefined` (here `none`)
once `nextSkip` reaches `lastPage.total`. -/
def getNextPageParam (lastPage : ProductsResponse) : Option Nat :=
  let nextSkip := lastPage.skip + lastPage.limit
  if nextSkip < lastPage.total then some nextSkip else none

/-- The pagination controller's state: the ordered sequence of fetched
pages, in fetch order. -/
structure QueryState where
  pages : List ProductsResponse
  deriving DecidableEq, Repr

/-- Modelled from the spec: the page param the next fetch would use.
TanStack Query (an external collaborator, not in this repository) uses
`initialPageParam = 0` for the first fetch and the repository's
`getNextPageParam` of the most recent page afterwards. -/
def nextPageParamOf (s : QueryState) : Option Nat :=
  match s.pages.getLast? with
  | none => some 0
  | some last => getNextPageParam last

/-- `hasNextPage` as surfaced by `useInfiniteQuery`: whether a next page
param exists. -/
def hasNextPage (s : QueryState) : Bool :=
  (nextPageParamOf s).isSome

/-- Modelled from the spec: one `fetchNextPage` step of the pagination
controller.  A no-op when exhausted; otherwise it runs the repository's
`queryFn`, i.e. `productService.fetchProducts(pageSize, pageParam)`,
appends the resulting page on success, and on failure leaves the pages
untouched and surfaces the error.  Returns the new state, the requests
issued, and the surfaced error if any.  The spec's Catalog Client contract
yields a Page or fails; a wrong-shaped resolution passed through by the
unvalidated client lies outside that contract — the library would append
the shapeless value itself, whose undefined fields end pagination — and
the typed page sequence cannot hold it, so the step records it as leaving
the pages unchanged with no surfaced error. -/
def loadNext (transport : String → FetchOutcome) (pageSize : Nat)
    (s : QueryState) : QueryState × List String × Option FetchError :=
  match nextPageParamOf s with
  | none => (s, [], none)
  | some cursor =>
      match fetchProducts transport pageSize cursor with
      | (reqs, .ok (.page page)) => (⟨s.pages ++ [page]⟩, reqs, none)
      | (reqs, .ok (.other _)) => (s, reqs, none)
      | (reqs, .error e) => (s, reqs, some e)

/-- Iterated `loadNext`, collecting every request issued along the way. -/
def loadNextN (transport : String → FetchOutcome) (pageSize : Nat) :
    Nat → QueryState → QueryState × List String
  | 0, s => (s, [])
  | n + 1, s =>
      let step := loadNext transport pageSize s
      let rest := loadNextN transport pageSize n step.1
      (rest.1, step.2.1 ++ rest.2)

/-- Modelled from the spec: mounting `useProducts`.  When `initialData` is
supplied, the query is seeded with that single page (`pageParams = [0]`)
and — the provider's staleTime being configured — no request is issued on
mount; without it, the initial fetch runs at `initialPageParam = 0`.
A wrong-shaped seed (possible because the server-side fetch passes its
resolution through unvalidated) lies outside the spec's seeding
description; the typed state cannot hold such a value, so the model
records only that no request is issued on mount for it. -/
def mountQuery (transport : String → FetchOutcome) (pageSize : Nat)
    (initialData : Option JsonValue) :
    QueryState × List String × Option FetchError :=
  match initialData with
  | some (.page page) => (⟨[page]⟩, [], none)
  | some (.other _) => (⟨[]⟩, [], none)
  | none => loadNext transport pageSize ⟨[]⟩

/-- The flattened all-products view of `ProductListClient`:
`data?.pages.flatMap((page) => page.products) ?? []`. -/
def allProducts (data : Option (List ProductsResponse)) : List Product :=
  match data with
  | some pages => pages.flatMap (fun page => page.products)
  | none => []

/-- `error instanceof Error ? error.message : ...` in `ProductListClient`:
all three error kinds are `Error` instances, so their message is shown. -/
def errorMessage : FetchError → String
  | .transportError msg => msg
  | .fetchFailed msg => msg
  | .decodeError msg => msg

/-- What `ProductListClient` renders: the error view (headline plus the
error's message), the initial loading view, or the grid over the flattened
product list together with the `isFetchingNextPage` and `hasMore` props it
hands to `ProductGrid`. -/
inductive ClientView where
  | errorView (headline detail : String)
  | loadingView
  | gridView (products : List Product) (isFetchingNextPage : Bool)
      (hasMore : Bool)
  deriving DecidableEq, Repr

/-- `ProductListClient`'s render logic: the error branch first, then the
initial-loading branch, then the grid over `allProducts`. -/
def renderProductList (data : Option (List ProductsResponse))
    (error : Option FetchError)
    (isLoading isFetchingNextPage hasNextPageFlag : Bool) : ClientView :=
  let all := allProducts data
  match error with
  | some e => .errorView "Failed to load products" (errorMessage e)
  | none =>
      if isLoading && all.length == 0 then .loadingView
      else .gridView all isFetchingNextPage hasNextPageFlag

/-- The products actually rendered by a view: the grid's list; the error
and loading views render none. -/
def renderedProducts : ClientView → List Product
  | .gridView ps _ _ => ps
  | _ => []

/-- `ProductGrid.handleIntersection` (components/product-grid.tsx):
`onLoadMore` fires exactly when the first observed entry is intersecting,
no load is in flight, and `hasMore` holds.  Returns whether `onLoadMore`
is invoked. -/
def handleIntersection (isLoading hasMore : Bool) (isIntersecting : Bool) :
    Bool :=
  isIntersecting && !isLoading && hasMore

/-- `getInitialProducts` from src/app/products/page.tsx: the server-side
`fetchProducts(20, 0)`, with any error swallowed into `null` (`none`); a
resolution — well-shaped or not — is returned as-is. -/
def getInitialProducts (transport : String → FetchOutcome) :
    Option JsonValue :=
  match (fetchProducts transport 20 0).2 with
  | .ok value => some value
  | .error _ => none

/-- The `initialData` prop `ProductsPage` hands to `ProductListClient`:
`initialData ?? undefined`, collapsing `null` into `undefined`. -/
def productsPageClientProp (transport : String → FetchOutcome) :
    Option JsonValue :=
  match getInitialProducts transport with
  | some value => some value
  | none => none

/-- A transport on which every fetch rejects, used to instantiate
hypotheses about failing calls on a concrete input. -/
def failingTransport : String → FetchOutcome :=
  fun _ => .networkFailure "fetch failed"

/-- A state holding one exhausted page: skip 0, limit 20, total 20. -/
def exhaustedState : QueryState :=
  ⟨[⟨[], 20, 0, 20⟩]⟩

/-- A state holding one loaded page with one product and more to come:
skip 0, limit 20, total 100. -/
def seededState : QueryState :=
  ⟨[⟨[⟨1, "Essence Mascara"⟩], 100, 0, 20⟩]⟩

/-- `fetchProducts` always issues exactly one request, to the url built
from its two arguments. -/
theorem fetchProducts_fst (transport : String → FetchOutcome)
    (limit skip : Nat) :
    (fetchProducts transport limit skip).1 = [productsUrl limit skip] := by
  cases h : transport (productsUrl limit skip) with
  | networkFailure msg => simp [fetchProducts, h]
  | response ok statusText body =>
      cases ok <;> cases body <;> simp [fetchProducts, h]

/-- An exhausted controller ignores `loadNext`: same state, no request,
no error. -/
theorem loadNext_exhausted (transport : String → FetchOutcome)
    (pageSize : Nat) (s : QueryState) (h : nextPageParamOf s = none) :
    loadNext transport pageSize s = (s, [], none) := by
  unfold loadNext
  rw [h]

/-- A non-exhausted `loadNext` issues exactly one request, at the cursor. -/
theorem loadNext_requests (transport : String → FetchOutcome)
    (pageSize : Nat) (s : QueryState) (c : Nat)
    (h : nextPageParamOf s = some c) :
    (loadNext transport pageSize s).2.1 = [productsUrl pageSize c] := by
  have hf := fetchProducts_fst transport pageSize c
  rcases hfp : fetchProducts transport pageSize c with ⟨reqs, res⟩
  rw [hfp] at hf
  simp only [loadNext, h]
  rw [hfp]
  cases res with
  | ok value => cases value <;> simpa using hf
  | error e => simpa using hf

/-- An exhausted controller ignores any number of `loadNext` calls. -/
theorem loadNextN_exhausted (transport : String → FetchOutcome)
    (pageSize : Nat) (n : Nat) (s : QueryState)
    (h : nextPageParamOf s = none) :
    loadNextN transport pageSize n s = (s, []) := by
  induction n with
  | zero => rfl
  | succ n ih =>
      unfold loadNextN
      rw [loadNext_exhausted transport pageSize s h]
      simpa using ih

/-- A failing `loadNext` leaves the state untouched, and the single request
it issued was at the current cursor. -/
theorem loadNext_failed (transport : String → FetchOutcome) (pageSize : Nat)
    (s s' : QueryState) (reqs : List String) (e : FetchError)
    (h : loadNext transport pageSize s = (s', reqs, some e)) :
    s' = s ∧
      ∃ c, nextPageParamOf s = some c ∧ reqs = [productsUrl pageSize c] := by
  cases hp : nextPageParamOf s with
  | none =>
      rw [loadNext_exhausted transport pageSize s hp] at h
      simp at h
  | some c =>
      have hf := fetchProducts_fst transport pageSize c
      rcases hfp : fetchProducts transport pageSize c with ⟨r, res⟩
      rw [hfp] at hf
      simp only [loadNext, hp, hfp] at h
      cases res with
      | ok value => cases value <;> simp at h
      | error e' =>
          simp at h hf
          exact ⟨h.1.symm, c, rfl, h.2.1.symm.trans hf⟩

/-- A `loadNext` that surfaces no error either left the pages alone
(exhausted) or appended exactly one page at the end. -/
theorem loadNext_success (transport : String → FetchOutcome) (pageSize : Nat)
    (s : QueryState) (h : (loadNext transport pageSize s).2.2 = none) :
    (loadNext transport pageSize s).1.pages = s.pages ∨
      ∃ page, (loadNext transport pageSize s).1.pages = s.pages ++ [page] := by
  cases hp : nextPageParamOf s with
  | none => rw [loadNext_exhausted transport pageSize s hp]; exact Or.inl rfl
  | some c =>
      rcases hfp : fetchProducts transport pageSize c with ⟨r, res⟩
      simp only [loadNext, hp, hfp]
      cases res with
      | ok value =>
          cases value with
          | page page => exact Or.inr ⟨page, rfl⟩
          | other raw => exact Or.inl rfl
      | error e' =>
          simp only [loadNext, hp, hfp] at h
          simp at h

/-- A well-formed server reply whose `limit` and `skip` do not echo the
request parameters. -/
def rogueBody : ProductsResponse := ⟨[], 50, 3, 7⟩

/-- A transport whose server answers every request with `rogueBody`. -/
def rogueTransport : String → FetchOutcome :=
  fun _ => .response true "OK" (.ok (.page rogueBody))

/-- Claim C1 counterexample: at the valid pair (limit 20, skip 0), a server
whose reply does not echo the query parameters makes `fetchProducts`
resolve with a page whose limit is 7 and skip is 3 — neither matching the
request nor failing — because the service returns `response.json()` without
validating the fields.  The claim, as stated, is therefore false. -/
theorem claim_C1_counterexample :
    (fetchProducts rogueTransport 20 0).2 = .ok (.page rogueBody) ∧
    rogueBody.limit ≠ 20 ∧ rogueBody.skip ≠ 0 :=
  ⟨rfl, by decide, by decide⟩

/-- Claim C1, amended: for every pair (limit, skip), `fetchProducts` issues
exactly one HTTP GET request, to the products url carrying exactly those two
values as the limit and skip query parameters, and either resolves with
exactly the value the successful response's body parsed to, unvalidated —
so a page whose limit and skip fields match the request exactly when the
server echoes the parameters — or fails with one of the three defined
error kinds. -/
theorem claim_C1_amended (transport : String → FetchOutcome)
    (limit skip : Nat) :
    (fetchProducts transport limit skip).1 = [productsUrl limit skip] ∧
    ((∃ value statusText,
        (fetchProducts transport limit skip).2 = .ok value ∧
        transport (productsUrl limit skip) =
          .response true statusText (.ok value)) ∨
      (∃ msg, (fetchProducts transport limit skip).2 =
        .error (.transportError msg)) ∨
      (∃ msg, (fetchProducts transport limit skip).2 =
        .error (.fetchFailed msg)) ∨
      (∃ msg, (fetchProducts transport limit skip).2 =
        .error (.decodeError msg))) := by
  refine ⟨fetchProducts_fst transport limit skip, ?_⟩
  cases h : transport (productsUrl limit skip) with
  | networkFailure msg =>
      refine Or.inr (Or.inl ⟨msg, ?_⟩)
      simp [fetchProducts, h]
  | response ok statusText body =>
      cases ok with
      | false =>
          refine Or.inr (Or.inr (Or.inl
            ⟨"Failed to fetch products: " ++ statusText, ?_⟩))
          simp [fetchProducts, h]
      | true =>
          cases body with
          | ok value =>
              refine Or.inl ⟨value, statusText, ?_, rfl⟩
              simp [fetchProducts, h]
          | error msg =>
              refine Or.inr (Or.inr (Or.inr ⟨msg, ?_⟩))
              simp [fetchProducts, h]

/-- A transport whose server answers 200 OK with a body that is valid JSON
but does not match the expected shape (an empty array). -/
def wrongShapeTransport : String → FetchOutcome :=
  fun _ => .response true "OK" (.ok (.other "[]"))

/-- Claim C3 counterexample: a success response whose body is valid JSON of
the wrong shape — "malformed" in the claim's sense of "not matching the
expected shape" — is resolved by `fetchProducts` as-is, with no error of
any kind, because `response.json()` rejects only invalid JSON syntax and
the service performs no shape validation.  The claim's "a malformed body
yields a DecodeError" is therefore false as stated. -/
theorem claim_C3_counterexample :
    (fetchProducts wrongShapeTransport 20 0).2 = .ok (.other "[]") ∧
    (fetchProducts wrongShapeTransport 20 0).2 ≠
      .error (.decodeError "[]") ∧
    (fetchProducts wrongShapeTransport 20 0).2 ≠
      .error (.transportError "[]") ∧
    (fetchProducts wrongShapeTransport 20 0).2 ≠
      .error (.fetchFailed "[]") :=
  ⟨rfl, by simp [fetchProducts, wrongShapeTransport],
    by simp [fetchProducts, wrongShapeTransport],
    by simp [fetchProducts, wrongShapeTransport]⟩

/-- Claim C3, amended: a response with a non-success status makes
`fetchProducts` fail with a `fetchFailed` error whose message carries the
response's status description; a network failure yields a `transportError`;
a body on which JSON parsing fails yields a `decodeError`; but a
syntactically valid body that does not match the expected shape is
resolved as-is with no error (the code performs no shape validation); and
the three error kinds are pairwise distinguishable. -/
theorem claim_C3_amended (t1 t2 t3 t4 : String → FetchOutcome)
    (limit skip : Nat)
    (statusText netMsg parseMsg okText okText2 raw : String)
    (body : Except String JsonValue)
    (h1 : t1 (productsUrl limit skip) = .response false statusText body)
    (h2 : t2 (productsUrl limit skip) = .networkFailure netMsg)
    (h3 : t3 (productsUrl limit skip) =
      .response true okText (.error parseMsg))
    (h4 : t4 (productsUrl limit skip) =
      .response true okText2 (.ok (.other raw))) :
    (fetchProducts t1 limit skip).2 =
      .error (.fetchFailed ("Failed to fetch products: " ++ statusText)) ∧
    (fetchProducts t2 limit skip).2 = .error (.transportError netMsg) ∧
    (fetchProducts t3 limit skip).2 = .error (.decodeError parseMsg) ∧
    (fetchProducts t4 limit skip).2 = .ok (.other raw) ∧
    (∀ m m' : String,
      FetchError.transportError m ≠ FetchError.fetchFailed m' ∧
      FetchError.transportError m ≠ FetchError.decodeError m' ∧
      FetchError.fetchFailed m ≠ FetchError.decodeError m') := by
  refine ⟨by simp [fetchProducts, h1], by simp [fetchProducts, h2],
    by simp [fetchProducts, h3], by simp [fetchProducts, h4], ?_⟩
  intro m m'
  refine ⟨?_, ?_, ?_⟩ <;> simp

/-- A transport answering with a non-ok status. -/
def nonOkTransport : String → FetchOutcome :=
  fun _ => .response false "Not Found" (.error "ignored")

/-- A transport answering ok with a body that fails JSON parsing. -/
def malformedTransport : String → FetchOutcome :=
  fun _ => .response true "OK" (.error "Unexpected end of JSON input")

/-- Claim C3 amended witness: the three failure shapes and the unvalidated
wrong-shape resolution realised on concrete transports. -/
theorem claim_C3_amended_witness :
    (fetchProducts nonOkTransport 20 0).2 =
      .error (.fetchFailed ("Failed to fetch products: " ++ "Not Found")) ∧
    (fetchProducts failingTransport 20 0).2 =
      .error (.transportError "fetch failed") ∧
    (fetchProducts malformedTransport 20 0).2 =
      .error (.decodeError "Unexpected end of JSON input") ∧
    (fetchProducts wrongShapeTransport 20 0).2 = .ok (.other "[]") ∧
    (∀ m m' : String,
      FetchError.transportError m ≠ FetchError.fetchFailed m' ∧
      FetchError.transportError m ≠ FetchError.decodeError m' ∧
      FetchError.fetchFailed m ≠ FetchError.decodeError m') :=
  claim_C3_amended nonOkTransport failingTransport malformedTransport
    wrongShapeTransport 20 0
    "Not Found" "fetch failed" "Unexpected end of JSON input" "OK" "OK" "[]"
    (.error "ignored") rfl rfl rfl rfl

/-- Claim C2: for every controller state whose most recent page is `p`,
`hasNextPage` is true exactly when `p.skip + p.limit < p.total`; and once
`p.skip + p.limit ≥ p.total`, any number of subsequent `loadNext` calls
leaves the state unchanged and issues no further fetch. -/
theorem claim_C2 (s : QueryState) (p : ProductsResponse)
    (h : s.pages.getLast? = some p) :
    (hasNextPage s = true ↔ p.skip + p.limit < p.total) ∧
    (p.total ≤ p.skip + p.limit →
      ∀ (transport : String → FetchOutcome) (pageSize n : Nat),
        loadNextN transport pageSize n s = (s, [])) := by
  have hparam : nextPageParamOf s = getNextPageParam p := by
    unfold nextPageParamOf
    rw [h]
  constructor
  · rw [hasNextPage, hparam]
    by_cases hlt : p.skip + p.limit < p.total
    · simp [getNextPageParam, hlt]
    · simp [getNextPageParam, hlt]
  · intro hge transport pageSize n
    apply loadNextN_exhausted
    rw [hparam]
    simp [getNextPageParam, Nat.not_lt.mpr hge]

/-- Claim C2 witness: the exhausted single-page state (skip 0, limit 20,
total 20) instantiates both parts. -/
theorem claim_C2_witness :
    (hasNextPage exhaustedState = true ↔ 0 + 20 < 20) ∧
    (20 ≤ 0 + 20 →
      ∀ (transport : String → FetchOutcome) (pageSize n : Nat),
        loadNextN transport pageSize n exhaustedState = (exhaustedState, [])) :=
  claim_C2 exhaustedState ⟨[], 20, 0, 20⟩ (by decide)

/-- Claim C4: a failing `loadNext` leaves the controller state exactly as it
was — no partial page appended, cursor not advanced — and a retry under any
transport issues exactly the same request (same offset) as the failed
attempt. -/
theorem claim_C4 (transport : String → FetchOutcome) (pageSize : Nat)
    (s s' : QueryState) (reqs : List String) (e : FetchError)
    (h : loadNext transport pageSize s = (s', reqs, some e)) :
    s' = s ∧
    ∀ transport2 : String → FetchOutcome,
      (loadNext transport2 pageSize s').2.1 = reqs := by
  obtain ⟨hs, c, hc, hr⟩ := loadNext_failed transport pageSize s s' reqs e h
  subst hs
  refine ⟨rfl, fun transport2 => ?_⟩
  rw [loadNext_requests transport2 pageSize s' c hc]
  exact hr.symm

/-- Claim C4 witness: the empty state under the always-failing transport
keeps its state and re-requests skip 0. -/
theorem claim_C4_witness :
    (⟨[]⟩ : QueryState) = ⟨[]⟩ ∧
    ∀ transport2 : String → FetchOutcome,
      (loadNext transport2 20 (⟨[]⟩ : QueryState)).2.1 = [productsUrl 20 0] :=
  claim_C4 failingTransport 20 ⟨[]⟩ ⟨[]⟩ [productsUrl 20 0]
    (.transportError "fetch failed") rfl

/-- The scenario page of claim C8: twenty items, total 100, skip 0,
limit 20. -/
def scenarioPage : ProductsResponse :=
  ⟨(List.range 20).map (fun i => ⟨i, "Scenario item"⟩), 100, 0, 20⟩

/-- Claim C8: after `fetchPage(20, 0)` resolved with total 100, skip 0 and
limit 20, `hasNextPage` is true and the next `loadNext` issues exactly one
request, with limit 20 and skip 20 as its query parameters, whatever the
transport answers. -/
theorem claim_C8 :
    hasNextPage ⟨[scenarioPage]⟩ = true ∧
    ∀ transport : String → FetchOutcome,
      (loadNext transport 20 ⟨[scenarioPage]⟩).2.1 = [productsUrl 20 20] := by
  refine ⟨by decide, fun transport => ?_⟩
  exact loadNext_requests transport 20 ⟨[scenarioPage]⟩ 20 (by decide)

/-- Claim C9: seeding the controller with a pre-fetched initial page of
skip 0, limit 20, total 20 yields, on mount, the seeded single-page state
with zero network requests and no error, and `hasNextPage` is false for it
immediately. -/
theorem claim_C9 (products : List Product)
    (transport : String → FetchOutcome) :
    mountQuery transport 20 (some (.page ⟨products, 20, 0, 20⟩)) =
      (⟨[⟨products, 20, 0, 20⟩]⟩, [], none) ∧
    hasNextPage ⟨[⟨products, 20, 0, 20⟩]⟩ = false := by
  refine ⟨rfl, ?_⟩
  simp [hasNextPage, nextPageParamOf, getNextPageParam]

/-- Claim C10: if the server-side initial fetch `fetchProducts(20, 0)`
fails with any error, `getInitialProducts` swallows it into `none`, the
client component receives no seed page, and mounting the client query
without a seed performs its own single fetch for limit 20, skip 0. -/
theorem claim_C10 (transport : String → FetchOutcome) (e : FetchError)
    (h : (fetchProducts transport 20 0).2 = .error e) :
    getInitialProducts transport = none ∧
    productsPageClientProp transport = none ∧
    ∀ transport2 : String → FetchOutcome,
      (mountQuery transport2 20 (productsPageClientProp transport)).2.1 =
        [productsUrl 20 0] := by
  have h1 : getInitialProducts transport = none := by
    unfold getInitialProducts
    rw [h]
  have h2 : productsPageClientProp transport = none := by
    unfold productsPageClientProp
    rw [h1]
  refine ⟨h1, h2, fun transport2 => ?_⟩
  rw [h2]
  show (loadNext transport2 20 ⟨[]⟩).2.1 = [productsUrl 20 0]
  exact loadNext_requests transport2 20 ⟨[]⟩ 0 rfl

/-- Claim C10 witness: the always-failing transport realises the failing
server-side fetch. -/
theorem claim_C10_witness :
    getInitialProducts failingTransport = none ∧
    productsPageClientProp failingTransport = none ∧
    ∀ transport2 : String → FetchOutcome,
      (mountQuery transport2 20
        (productsPageClientProp failingTransport)).2.1 =
        [productsUrl 20 0] :=
  claim_C10 failingTransport (.transportError "fetch failed") rfl

/-- A catalogue item reappearing on two pages. -/
def dupProduct : Product := ⟨1, "Red Lipstick"⟩

/-- A first page carrying `dupProduct`. -/
def dupPageA : ProductsResponse := ⟨[dupProduct], 40, 0, 20⟩

/-- A second page carrying `dupProduct` again. -/
def dupPageB : ProductsResponse := ⟨[dupProduct], 40, 20, 20⟩

/-- A transport serving `dupPageA` at skip 0 and `dupPageB` afterwards. -/
def dupTransport : String → FetchOutcome :=
  fun url =>
    if url = productsUrl 20 0 then .response true "OK" (.ok (.page dupPageA))
    else .response true "OK" (.ok (.page dupPageB))

/-- Claim C5 counterexample: two successful `loadNext` calls against a
server that repeats a product across pages produce a flattened view in
which that product appears twice — the concatenation performs no
deduplication, so "no product appears twice" is false as stated. -/
theorem claim_C5_counterexample :
    (loadNext dupTransport 20 ⟨[]⟩).2.2 = none ∧
    (loadNext dupTransport 20 (loadNext dupTransport 20 ⟨[]⟩).1).2.2 =
      none ∧
    (loadNext dupTransport 20 (loadNext dupTransport 20 ⟨[]⟩).1).1.pages =
      [dupPageA, dupPageB] ∧
    ¬ (allProducts (some [dupPageA, dupPageB])).Nodup := by
  refine ⟨?_, ?_, ?_, ?_⟩ <;> decide

/-- Each page of the sequence appears contiguously, in order, inside the
flattened view. -/
theorem allProducts_mem_decomp (pages : List ProductsResponse)
    (p : ProductsResponse) (hp : p ∈ pages) :
    ∃ l r, allProducts (some pages) = l ++ p.products ++ r := by
  induction pages with
  | nil => cases hp
  | cons q rest ih =>
      rcases List.mem_cons.mp hp with hq | hrest
      · subst hq
        exact ⟨[], allProducts (some rest), by simp [allProducts]⟩
      · obtain ⟨l, r, hlr⟩ := ih hrest
        refine ⟨q.products ++ l, r, ?_⟩
        simp [allProducts] at hlr ⊢
        simp [hlr]

/-- Claim C5, amended: the flattened all-products view is the concatenation
of the pages' product lists in fetch order; its length is the sum of the
per-page product counts; each page's product list appears contiguously and
in its original order; and provided each page is internally duplicate-free
and distinct pages carry disjoint product lists (as a well-behaved server
returns for distinct offsets), no product appears twice.  Moreover every
successful `loadNext` either leaves the page sequence unchanged (when
exhausted) or appends exactly one page at its end. -/
theorem claim_C5_amended (pages : List ProductsResponse) :
    allProducts (some pages) =
      (pages.map (fun page => page.products)).flatten ∧
    (allProducts (some pages)).length =
      (pages.map (fun page => page.products.length)).sum ∧
    (∀ p ∈ pages, ∃ l r, allProducts (some pages) = l ++ p.products ++ r) ∧
    ((∀ p ∈ pages, p.products.Nodup) →
      pages.Pairwise (fun a b => ∀ x ∈ a.products, x ∉ b.products) →
      (allProducts (some pages)).Nodup) ∧
    (∀ (transport : String → FetchOutcome) (pageSize : Nat) (s : QueryState),
      (loadNext transport pageSize s).2.2 = none →
      (loadNext transport pageSize s).1.pages = s.pages ∨
        ∃ page, (loadNext transport pageSize s).1.pages =
          s.pages ++ [page]) := by
  refine ⟨?_, ?_, allProducts_mem_decomp pages, ?_, loadNext_success⟩
  · simp [allProducts, List.flatMap_def]
  · simp only [allProducts, List.length_flatMap]
    rfl
  · intro hnodup hdisj
    have hn : (pages.flatMap (fun page => page.products)).Nodup := by
      rw [List.nodup_flatMap]
      exact ⟨hnodup, hdisj.imp fun h a ha hb => h a ha hb⟩
    simpa [allProducts] using hn

/-- A first witness page, disjoint from the second. -/
def wPageA : ProductsResponse := ⟨[⟨1, "Alpha"⟩, ⟨2, "Beta"⟩], 4, 0, 2⟩

/-- A second witness page, disjoint from the first. -/
def wPageB : ProductsResponse := ⟨[⟨3, "Gamma"⟩, ⟨4, "Delta"⟩], 4, 2, 2⟩

/-- Claim C5 amended witness: two concrete disjoint pages yield a
duplicate-free flattened view containing the second page contiguously. -/
theorem claim_C5_amended_witness :
    (allProducts (some [wPageA, wPageB])).Nodup ∧
    ∃ l r, allProducts (some [wPageA, wPageB]) = l ++ wPageB.products ++ r :=
  ⟨(claim_C5_amended [wPageA, wPageB]).2.2.2.1 (by decide) (by decide),
   (claim_C5_amended [wPageA, wPageB]).2.2.1 wPageB (by decide)⟩

/-- Claim C6: the scroll trigger fires `onLoadMore` exactly when the
sentinel is intersecting, no load is in flight, and `hasMore` holds; and
once the controller is exhausted, any number of further `loadNext` calls
changes nothing, issues no request, and the trigger can never fire again
whatever the sentinel and loading flags do. -/
theorem claim_C6 :
    (∀ isLoading hasMore isIntersecting : Bool,
      handleIntersection isLoading hasMore isIntersecting = true ↔
        isIntersecting = true ∧ isLoading = false ∧ hasMore = true) ∧
    (∀ s : QueryState, hasNextPage s = false →
      ∀ (transport : String → FetchOutcome) (pageSize n : Nat),
        loadNextN transport pageSize n s = (s, []) ∧
        ∀ isLoading isIntersecting : Bool,
          handleIntersection isLoading
            (hasNextPage (loadNextN transport pageSize n s).1)
            isIntersecting = false) := by
  constructor
  · intro l h i
    cases l <;> cases h <;> cases i <;> simp [handleIntersection]
  · intro s hs transport pageSize n
    have hnone : nextPageParamOf s = none := by
      cases hnp : nextPageParamOf s with
      | none => rfl
      | some c => rw [hasNextPage, hnp] at hs; simp at hs
    have hN := loadNextN_exhausted transport pageSize n s hnone
    refine ⟨hN, fun l i => ?_⟩
    rw [hN]
    simp [handleIntersection, hs]

/-- Claim C6 witness: the exhausted single-page state stays exhausted
through three `loadNext` calls and the trigger stays off. -/
theorem claim_C6_witness :
    loadNextN failingTransport 20 3 exhaustedState = (exhaustedState, []) ∧
    ∀ isLoading isIntersecting : Bool,
      handleIntersection isLoading
        (hasNextPage (loadNextN failingTransport 20 3 exhaustedState).1)
        isIntersecting = false :=
  claim_C6.2 exhaustedState (by decide) failingTransport 20 3

/-- Claim C7 counterexample: after a failing fetch on a state with one
previously loaded product, the client renders the error view — which shows
the failure reason but renders an empty product list even though the
previously loaded list is non-empty.  The "rendered product list remains
exactly whatever was previously loaded" part of the claim is therefore
false as stated. -/
theorem claim_C7_counterexample :
    (loadNext failingTransport 20 seededState).2.2 =
      some (.transportError "fetch failed") ∧
    (loadNext failingTransport 20 seededState).1 = seededState ∧
    renderProductList (some seededState.pages)
      (some (.transportError "fetch failed")) false false true =
      .errorView "Failed to load products" "fetch failed" ∧
    renderedProducts (renderProductList (some seededState.pages)
      (some (.transportError "fetch failed")) false false true) = [] ∧
    allProducts (some seededState.pages) = [⟨1, "Essence Mascara"⟩] :=
  ⟨rfl, rfl, rfl, rfl, rfl⟩

/-- Claim C7, amended: when a fetch rejects, the stored pages (and hence
the flattened all-products data) remain exactly whatever was previously
loaded, and the Presentation Layer shows an error message carrying the
failure reason; but while the error is present the grid is replaced by the
error view, so the rendered product list is empty — coinciding with the
previously loaded list only when the first fetch failed. -/
theorem claim_C7_amended (transport : String → FetchOutcome) (pageSize : Nat)
    (s s' : QueryState) (reqs : List String) (e : FetchError)
    (h : loadNext transport pageSize s = (s', reqs, some e)) :
    s'.pages = s.pages ∧
    ∀ isLoading isFetchingNextPage hasMoreFlag : Bool,
      renderProductList (some s'.pages) (some e)
        isLoading isFetchingNextPage hasMoreFlag =
        .errorView "Failed to load products" (errorMessage e) ∧
      renderedProducts (renderProductList (some s'.pages) (some e)
        isLoading isFetchingNextPage hasMoreFlag) = [] := by
  obtain ⟨hs, -⟩ := loadNext_failed transport pageSize s s' reqs e h
  subst hs
  exact ⟨rfl, fun isLoading isFetchingNextPage hasMoreFlag => ⟨rfl, rfl⟩⟩

/-- Claim C7 amended witness: the failing transport on the seeded state
realises the error view with untouched pages. -/
theorem claim_C7_amended_witness :
    (seededState : QueryState).pages = seededState.pages ∧
    ∀ isLoading isFetchingNextPage hasMoreFlag : Bool,
      renderProductList (some seededState.pages)
        (some (.transportError "fetch failed"))
        isLoading isFetchingNextPage hasMoreFlag =
        .errorView "Failed to load products"
          (errorMessage (.transportError "fetch failed")) ∧
      renderedProducts (renderProductList (some seededState.pages)
        (some (.transportError "fetch failed"))
        isLoading isFetchingNextPage hasMoreFlag) = [] :=
  claim_C7_amended failingTransport 20 seededState seededState
    [productsUrl 20 20] (.transportError "fetch failed") rfl

end ProductApp
